import Mathlib

/-!
Verification of the Power BI migration utility (`main.py`).

The program is a one-shot batch migrator: it lists reports in a source
workspace, diffs them by name against a destination workspace, and for each
report not ignored and not already present it exports the report's bytes,
archives them to object storage, and imports them into the destination.

Shallow embedding notes:
* Network responses are oracle inputs: an `Env` record carries the HTTP
  response each call would receive (status code plus decoded body).
* Python exceptions (`raise_for_status`, `TypeError` from using `None` as a
  list) are modelled with an explicit `PyErr` value; an uncaught exception
  ends the run with `error = some e` in the `RunResult`.
* Side effects (HTTP calls, GCS uploads, `print` logging, list appends) are
  recorded as an ordered `Event` trace.
* `time.time()` durations are wall-clock and not modelled; the timing print
  is recorded as a fixed log event.
* Report bytes are modelled as `List Nat`; JSON response bodies of
  the import call are modelled as opaque strings.
-/

/-- A report catalog entry, as built by `get_reports`:
`{"id": result.get("id"), "name": result.get("name")}`. -/
structure Report where
  id : String
  name : String
deriving DecidableEq

/-- A workspace entry from the groups listing: `{id, name}`. -/
structure Workspace where
  id : String
  name : String
deriving DecidableEq

/-- A decoded HTTP response: status code and decoded body. -/
structure HttpResponse (α : Type) where
  status : Nat
  body : α
deriving DecidableEq

/-- An uncaught Python exception. `httpError` stands for
`requests.exceptions.HTTPError` raised by `raise_for_status`; `typeError`
stands for `TypeError` from applying `len`/iteration to `None`. -/
inductive PyErr where
  | typeError
  | httpError (status : Nat)
deriving DecidableEq

/-- Observable actions of the run, in program order: `log` is a `print`,
`exportCall` is the export GET, `uploadCall` is `blob.upload_from_string`
on the object path, `importCall` is the import POST carrying the bytes,
`appendDst` is `dst_reports_dict.append(report)`. -/
inductive Event where
  | log (msg : String)
  | exportCall (reportId : String)
  | uploadCall (path : String) (content : List Nat)
  | importCall (name : String) (content : List Nat)
  | appendDst (r : Report)
deriving DecidableEq

/-- Outcome of a run: the event trace, and the uncaught exception if the
run aborted. -/
structure RunResult where
  events : List Event
  error : Option PyErr
deriving DecidableEq

/-- `beginsWith n h` is true when `n` is an initial segment of `h`. -/
def beginsWith : List Char → List Char → Bool
  | [], _ => true
  | _ :: _, [] => false
  | a :: as, b :: bs => a == b && beginsWith as bs

/-- `occursIn n h` is true when `n` occurs contiguously inside `h`. -/
def occursIn (needle : List Char) : List Char → Bool
  | [] => needle.isEmpty
  | b :: t => beginsWith needle (b :: t) || occursIn needle t

/-- Python's `x in s` on strings: substring containment. -/
def pyIn (x s : String) : Bool := occursIn x.data s.data

/-- `HTTP_OK = 200`. -/
def HTTP_OK : Nat := 200

/-- `response.raise_for_status()`: raises `HTTPError` exactly on a 4xx or
5xx status code. -/
def raise_for_status (status : Nat) : Except PyErr Unit :=
  if 400 ≤ status ∧ status < 600 then Except.error (PyErr.httpError status)
  else Except.ok ()

/-- `get_workspace`: raises on an error status, filters the listed groups
by exact name equality, and returns `ws[0].get("id")` when the filtered
list is non-empty, `None` otherwise. -/
def get_workspace (resp : HttpResponse (List Workspace)) (workspace_name : String) :
    Except PyErr (Option String) :=
  match raise_for_status resp.status with
  | Except.error e => Except.error e
  | Except.ok _ =>
    let ws := resp.body.filter (fun r => r.name == workspace_name)
    if ws.length > 0 then Except.ok (ws.head?.map Workspace.id)
    else Except.ok none

/-- The error message printed by `get_reports` on a non-200 status. -/
def reportsErrMsg (status : Nat) (workspace_id : String) : String :=
  "Error " ++ toString status ++
    " -- Something went wrong when trying to retrieve the list of reports in the workspace "
    ++ workspace_id

/-- `get_reports`: on status 200 rebuilds the `{id, name}` records and
returns them; otherwise prints an error message and returns `None`
(second component: the printed log lines). -/
def get_reports (workspace_id : String) (resp : HttpResponse (List Report)) :
    Option (List Report) × List String :=
  if resp.status == HTTP_OK then
    (some (resp.body.map (fun r => { id := r.id, name := r.name })), [])
  else
    (none, [reportsErrMsg resp.status workspace_id])

/-- `export_report`: `raise_for_status` then return the raw body bytes. -/
def export_report (resp : HttpResponse (List Nat)) : Except PyErr (List Nat) :=
  match raise_for_status resp.status with
  | Except.error e => Except.error e
  | Except.ok _ => Except.ok resp.body

/-- `import_report`: on a status other than 202 prints the response body
and returns `None`; on 202 returns the parsed descriptor (first component:
the result, second: the printed log lines). -/
def import_report (resp : HttpResponse String) : Option String × List String :=
  if resp.status != 202 then (none, [resp.body]) else (some resp.body, [])

/-- The log line printed by `upload_report_to_gcs`. -/
def uploadedMsg (report_name destination_blob_name : String) : String :=
  "Report " ++ report_name ++ " uploaded to " ++ destination_blob_name ++ "."

/-- `upload_report_to_gcs`: uploads the bytes to
`{directory}/{report_name}.pbix` and prints a confirmation. -/
def upload_report_to_gcs (directory : String) (report_content : List Nat)
    (report_name : String) : List Event :=
  let destination_blob_name := directory ++ "/" ++ report_name ++ ".pbix"
  [Event.uploadCall destination_blob_name report_content,
   Event.log (uploadedMsg report_name destination_blob_name)]

/-- Log line: migration started for a report (`print` with two arguments,
hence the double space). -/
def startedMsg (report_name : String) : String :=
  "INFO --Report Migration Started for:  " ++ report_name

/-- Log line: report already present in the destination. -/
def existsMsg (report_name : String) : String :=
  "INFO --Report " ++ report_name ++
    " already exists in the destination. Skipping migration."

/-- Log line: export produced no content. -/
def failedMsg (report_name : String) : String :=
  "ERROR -- Report Migration Failed for:  " ++ report_name

/-- Python `print` rendering of the import result: `None` or the
descriptor. -/
def optRepr : Option String → String
  | none => "None"
  | some s => s

/-- Log line: the unconditional success message, showing whatever
`import_report` returned. -/
def successMsg (import_response : Option String) : String :=
  "INFO --Report Migration Successful for Report ID:  " ++ optRepr import_response

/-- Log line standing in for `Migration took {t} seconds!` (the duration is
wall-clock and not modelled). -/
def timingMsg : String := "Migration took"

/-- Per-run oracle: configuration values and the HTTP response each network
call would receive. Credential and token acquisition are abstracted away
(their failures abort before the logic under study); workspace ids are the
values the two `get_workspace` calls produced. -/
structure Env where
  workspace_name : String
  ignore_reports : String
  directory : String
  source_workspace_id : String
  target_workspace_id : String
  srcResp : HttpResponse (List Report)
  dstResp : HttpResponse (List Report)
  exportResp : String → HttpResponse (List Nat)
  respImport : String → HttpResponse String

/-- The body of the `for report in source_reports_dict` loop for one
report: the events it emits and the exception it raises, if any.
`dstNames` is the key set of `dst_reports_dict_by_name`, built once before
the loop. -/
def processReport (env : Env) (dstNames : List String) (report : Report) :
    List Event × Option PyErr :=
  let report_name := report.name
  if pyIn report_name env.ignore_reports then
    ([], none)
  else if dstNames.contains report_name then
    ([Event.log (existsMsg report_name)], none)
  else
    let started := [Event.log (startedMsg report_name), Event.log report.id,
                    Event.exportCall report.id]
    match export_report (env.exportResp report.id) with
    | Except.error e => (started, some e)
    | Except.ok report_content =>
      if report_content.isEmpty then
        (started ++ [Event.log (failedMsg report_name), Event.log timingMsg], none)
      else
        let imported := import_report (env.respImport report_name)
        (started
          ++ upload_report_to_gcs env.directory report_content report_name
          ++ [Event.importCall report_name report_content]
          ++ imported.2.map Event.log
          ++ [Event.log (successMsg imported.1), Event.appendDst report,
              Event.log timingMsg],
         none)

/-- The migration loop over the source catalog: concatenates the per-report
event blocks, stopping at the first uncaught exception. -/
def migrate (env : Env) (dstNames : List String) : List Report → List Event × Option PyErr
  | [] => ([], none)
  | report :: rest =>
    let p := processReport env dstNames report
    match p.2 with
    | some e => (p.1, some e)
    | none =>
      let r := migrate env dstNames rest
      (p.1 ++ r.1, r.2)

/-- Log line: source-side catalog size. -/
def countMsgVGM (workspace_name : String) (n : Nat) : String :=
  "Number of reports in the VGM '" ++ workspace_name ++ "' workspace : " ++ toString n

/-- Log line: destination-side catalog size. -/
def countMsgFT (workspace_name : String) (n : Nat) : String :=
  "Number of reports in the FastTrack '" ++ workspace_name ++ "' workspace : " ++ toString n

/-- `main` from the two `get_reports` calls onward. Applying `len` to the
`None` returned by a failed listing, or building the name-keyed dict from
it, raises `TypeError` and aborts the run. -/
def mainRun (env : Env) : RunResult :=
  let src := get_reports env.source_workspace_id env.srcResp
  match src.1 with
  | none => { events := src.2.map Event.log, error := some PyErr.typeError }
  | some source_reports_dict =>
    let ev1 := src.2.map Event.log
      ++ [Event.log (countMsgVGM env.workspace_name source_reports_dict.length)]
    let dst := get_reports env.target_workspace_id env.dstResp
    match dst.1 with
    | none => { events := ev1 ++ dst.2.map Event.log, error := some PyErr.typeError }
    | some dst_reports_dict =>
      let dstNames := dst_reports_dict.map Report.name
      let ev2 := ev1 ++ dst.2.map Event.log
        ++ [Event.log (countMsgFT env.workspace_name dst_reports_dict.length)]
      let loop := migrate env dstNames source_reports_dict
      { events := ev2 ++ loop.1, error := loop.2 }

/-- An operation "for" report `R`: its export GET (by id), an upload to its
object path, or an import POST under its name. -/
def isOpFor (directory : String) (R : Report) : Event → Bool
  | Event.exportCall rid => rid == R.id
  | Event.uploadCall p _ => p == directory ++ "/" ++ R.name ++ ".pbix"
  | Event.importCall n _ => n == R.name
  | _ => false

/-- Concrete run: two source reports sharing the name `Report 1`, empty
destination catalog, all exports succeed with bytes `[7]`, all imports are
accepted with status 202. -/
def envC1 : Env :=
  { workspace_name := "W", ignore_reports := "X", directory := "d",
    source_workspace_id := "S", target_workspace_id := "T",
    srcResp := ⟨200, [⟨"1", "Report 1"⟩, ⟨"2", "Report 1"⟩]⟩,
    dstResp := ⟨200, []⟩,
    exportResp := fun _ => ⟨200, [7]⟩,
    respImport := fun _ => ⟨202, "ok"⟩ }

/-- Concrete run: the export of report `1` answers HTTP 500; the export of
report `2` would succeed. -/
def envC2 : Env :=
  { workspace_name := "W", ignore_reports := "X", directory := "d",
    source_workspace_id := "S", target_workspace_id := "T",
    srcResp := ⟨200, [⟨"1", "A"⟩, ⟨"2", "B"⟩]⟩,
    dstResp := ⟨200, []⟩,
    exportResp := fun rid => if rid == "1" then ⟨500, []⟩ else ⟨200, [7]⟩,
    respImport := fun _ => ⟨202, "ok"⟩ }

/-- Concrete run: the source catalog listing answers HTTP 500. -/
def envC3 : Env :=
  { workspace_name := "W", ignore_reports := "X", directory := "d",
    source_workspace_id := "S", target_workspace_id := "T",
    srcResp := ⟨500, []⟩,
    dstResp := ⟨200, []⟩,
    exportResp := fun _ => ⟨200, [7]⟩,
    respImport := fun _ => ⟨202, "ok"⟩ }

/-- Concrete run: report `G` exports fine but its import is rejected with
status 400. -/
def envC4 : Env :=
  { workspace_name := "W", ignore_reports := "X", directory := "d",
    source_workspace_id := "S", target_workspace_id := "T",
    srcResp := ⟨200, [⟨"1", "G"⟩]⟩,
    dstResp := ⟨200, []⟩,
    exportResp := fun _ => ⟨200, [7]⟩,
    respImport := fun _ => ⟨400, "bad"⟩ }

/-- Concrete run: the destination catalog already holds a report named
`Dup`, and the source catalog holds another one. -/
def envC6 : Env :=
  { workspace_name := "W", ignore_reports := "X", directory := "d",
    source_workspace_id := "S", target_workspace_id := "T",
    srcResp := ⟨200, [⟨"1", "Dup"⟩]⟩,
    dstResp := ⟨200, [⟨"77", "Dup"⟩]⟩,
    exportResp := fun _ => ⟨200, [7]⟩,
    respImport := fun _ => ⟨202, "ok"⟩ }

/-- Concrete run: report `1` is named `Secret Report`, which is listed in
the ignore configuration. -/
def envC5 : Env :=
  { workspace_name := "W", ignore_reports := "Secret Report, Other",
    directory := "archive", source_workspace_id := "S", target_workspace_id := "T",
    srcResp := ⟨200, [⟨"1", "Secret Report"⟩, ⟨"2", "Public"⟩]⟩,
    dstResp := ⟨200, []⟩,
    exportResp := fun _ => ⟨200, [1, 2]⟩,
    respImport := fun _ => ⟨202, "desc"⟩ }

/-- Concrete run whose ignore configuration is the raw string
`["ignore_report_1", "ignore_report_2"]` (a JSON-style list, as the test
suite supplies it). -/
def envC9 : Env :=
  { workspace_name := "W",
    ignore_reports := "[\"ignore_report_1\", \"ignore_report_2\"]",
    directory := "d", source_workspace_id := "S", target_workspace_id := "T",
    srcResp := ⟨200, [⟨"9", "ignore_report"⟩]⟩,
    dstResp := ⟨200, []⟩,
    exportResp := fun _ => ⟨200, [7]⟩,
    respImport := fun _ => ⟨202, "ok"⟩ }

example : pyIn "b" "abc" = true := by decide
example : pyIn "Report 1" "" = false := by decide
example : pyIn "ignore_report" "ignore_report_1, ignore_report_2" = true := by decide

/-! ## Helper lemmas -/

lemma migrate_cons_ok (env : Env) (d : List String) (r : Report) (rs : List Report)
    (h : (processReport env d r).2 = none) :
    migrate env d (r :: rs) =
      ((processReport env d r).1 ++ (migrate env d rs).1, (migrate env d rs).2) := by
  simp only [migrate, h]

lemma migrate_cons_err (env : Env) (d : List String) (r : Report) (rs : List Report)
    (e : PyErr) (h : (processReport env d r).2 = some e) :
    migrate env d (r :: rs) = ((processReport env d r).1, some e) := by
  simp only [migrate, h]

lemma processReport_ignored (env : Env) (d : List String) (r : Report)
    (h : pyIn r.name env.ignore_reports = true) :
    processReport env d r = ([], none) := by
  simp only [processReport, h, if_true]

lemma processReport_skip (env : Env) (d : List String) (r : Report)
    (hig : pyIn r.name env.ignore_reports = false)
    (hd : d.contains r.name = true) :
    processReport env d r = ([Event.log (existsMsg r.name)], none) := by
  simp only [processReport, hig, hd, Bool.false_eq_true, if_false, if_true]

lemma processReport_raise (env : Env) (d : List String) (r : Report)
    (hig : pyIn r.name env.ignore_reports = false)
    (hd : d.contains r.name = false)
    (hst : 400 ≤ (env.exportResp r.id).status ∧ (env.exportResp r.id).status < 600) :
    processReport env d r =
      ([Event.log (startedMsg r.name), Event.log r.id, Event.exportCall r.id],
       some (PyErr.httpError (env.exportResp r.id).status)) := by
  have hr : raise_for_status (env.exportResp r.id).status =
      Except.error (PyErr.httpError (env.exportResp r.id).status) := by
    simp [raise_for_status, hst]
  simp only [processReport, hig, hd, Bool.false_eq_true, if_false, export_report, hr]

lemma processReport_emptyExport (env : Env) (d : List String) (r : Report)
    (hig : pyIn r.name env.ignore_reports = false)
    (hd : d.contains r.name = false)
    (hst : ¬(400 ≤ (env.exportResp r.id).status ∧ (env.exportResp r.id).status < 600))
    (hc : (env.exportResp r.id).body = []) :
    processReport env d r =
      ([Event.log (startedMsg r.name), Event.log r.id, Event.exportCall r.id,
        Event.log (failedMsg r.name), Event.log timingMsg], none) := by
  have hr : raise_for_status (env.exportResp r.id).status = Except.ok () := by
    simp [raise_for_status, hst]
  simp only [processReport, hig, hd, Bool.false_eq_true, if_false, export_report, hr,
    hc, List.isEmpty_nil, if_true]
  rfl

lemma processReport_migrated (env : Env) (d : List String) (r : Report)
    (hig : pyIn r.name env.ignore_reports = false)
    (hd : d.contains r.name = false)
    (hst : ¬(400 ≤ (env.exportResp r.id).status ∧ (env.exportResp r.id).status < 600))
    (hc : (env.exportResp r.id).body ≠ []) :
    processReport env d r =
      ([Event.log (startedMsg r.name), Event.log r.id, Event.exportCall r.id]
        ++ upload_report_to_gcs env.directory (env.exportResp r.id).body r.name
        ++ [Event.importCall r.name (env.exportResp r.id).body]
        ++ (import_report (env.respImport r.name)).2.map Event.log
        ++ [Event.log (successMsg (import_report (env.respImport r.name)).1),
            Event.appendDst r, Event.log timingMsg],
       none) := by
  have hne : (env.exportResp r.id).body.isEmpty = false := by
    cases h : (env.exportResp r.id).body with
    | nil => exact absurd h hc
    | cons a as => rfl
  have hr : raise_for_status (env.exportResp r.id).status = Except.ok () := by
    simp [raise_for_status, hst]
  simp only [processReport, hig, hd, Bool.false_eq_true, if_false, export_report, hr,
    hne, Bool.false_eq_true, if_false]

lemma migrate_origin (env : Env) (d : List String) (l : List Report) :
    ∀ e ∈ (migrate env d l).1, ∃ r ∈ l, e ∈ (processReport env d r).1 := by
  induction l with
  | nil => intro e he; simp [migrate] at he
  | cons r rs ih =>
    intro e he
    simp only [migrate] at he
    rcases hp : (processReport env d r).2 with _ | err
    · rw [hp] at he
      simp only [List.mem_append] at he
      rcases he with he | he
      · exact ⟨r, List.mem_cons_self r rs, he⟩
      · rcases ih e he with ⟨r', hr', he'⟩
        exact ⟨r', List.mem_cons_of_mem r hr', he'⟩
    · rw [hp] at he
      exact ⟨r, List.mem_cons_self r rs, he⟩

lemma report_map_eta (l : List Report) :
    l.map (fun r => ({ id := r.id, name := r.name } : Report)) = l := by
  induction l with
  | nil => rfl
  | cons a as ih => simp [ih]

lemma string_append_cancel_right (a b t : String) (h : a ++ t = b ++ t) : a = b := by
  have hd : a.data ++ t.data = b.data ++ t.data := by
    have := congrArg String.data h
    simpa [String.data_append] using this
  have hab : a.data = b.data := List.append_cancel_right hd
  cases a; cases b; exact congrArg String.mk hab

lemma string_append_cancel_left (p a b : String) (h : p ++ a = p ++ b) : a = b := by
  have hd : p.data ++ a.data = p.data ++ b.data := by
    have := congrArg String.data h
    simpa [String.data_append] using this
  have hab : a.data = b.data := List.append_cancel_left hd
  cases a; cases b; exact congrArg String.mk hab

lemma pathInj (directory a b : String)
    (h : directory ++ "/" ++ a ++ ".pbix" = directory ++ "/" ++ b ++ ".pbix") :
    a = b := by
  have h1 : directory ++ "/" ++ a = directory ++ "/" ++ b :=
    string_append_cancel_right _ _ _ h
  exact string_append_cancel_left _ _ _ h1

lemma filter_head?_eq_find? {α : Type} (p : α → Bool) (l : List α) :
    (l.filter p).head? = l.find? p := by
  induction l with
  | nil => rfl
  | cons a as ih =>
    by_cases h : p a
    · simp [List.filter, List.find?, h]
    · simp only [Bool.not_eq_true] at h
      simp [List.filter, List.find?, h, ih]

lemma get_reports_eq_some {wid : String} {resp : HttpResponse (List Report)}
    {l : List Report} (h : (get_reports wid resp).1 = some l) : l = resp.body := by
  by_cases hs : resp.status == HTTP_OK
  · simp only [get_reports, hs, if_true] at h
    rw [Option.some.injEq, report_map_eta] at h
    exact h.symm
  · simp [get_reports, hs] at h

lemma mainRun_src_fail (env : Env) (h : env.srcResp.status ≠ 200) :
    mainRun env =
      { events := [Event.log (reportsErrMsg env.srcResp.status env.source_workspace_id)],
        error := some PyErr.typeError } := by
  have hs : (env.srcResp.status == HTTP_OK) = false := by
    simp [HTTP_OK]; exact h
  simp [mainRun, get_reports, hs]

lemma mainRun_dst_fail (env : Env) (h1 : env.srcResp.status = 200)
    (h2 : env.dstResp.status ≠ 200) :
    mainRun env =
      { events := [Event.log (countMsgVGM env.workspace_name env.srcResp.body.length),
                   Event.log (reportsErrMsg env.dstResp.status env.target_workspace_id)],
        error := some PyErr.typeError } := by
  have hs1 : (env.srcResp.status == HTTP_OK) = true := by simp [HTTP_OK, h1]
  have hs2 : (env.dstResp.status == HTTP_OK) = false := by
    simp [HTTP_OK]; exact h2
  simp [mainRun, get_reports, hs1, hs2, report_map_eta]

lemma mainRun_ok (env : Env) (h1 : env.srcResp.status = 200)
    (h2 : env.dstResp.status = 200) :
    mainRun env =
      { events := [Event.log (countMsgVGM env.workspace_name env.srcResp.body.length),
                   Event.log (countMsgFT env.workspace_name env.dstResp.body.length)]
          ++ (migrate env (env.dstResp.body.map Report.name) env.srcResp.body).1,
        error := (migrate env (env.dstResp.body.map Report.name) env.srcResp.body).2 } := by
  have hs1 : (env.srcResp.status == HTTP_OK) = true := by simp [HTTP_OK, h1]
  have hs2 : (env.dstResp.status == HTTP_OK) = true := by simp [HTTP_OK, h2]
  simp [mainRun, get_reports, hs1, hs2, report_map_eta]

lemma processReport_events_shape (env : Env) (d : List String) (r : Report) :
    ∀ e ∈ (processReport env d r).1,
      (∃ m, e = Event.log m) ∨ e = Event.exportCall r.id ∨
      (∃ c, e = Event.uploadCall (env.directory ++ "/" ++ r.name ++ ".pbix") c) ∨
      (∃ c, e = Event.importCall r.name c) ∨ e = Event.appendDst r := by
  intro e he
  simp only [processReport, upload_report_to_gcs] at he
  split at he
  · simp at he
  · split at he
    · simp only [List.mem_singleton] at he
      exact Or.inl ⟨_, he⟩
    · split at he
      · simp only [List.mem_cons, List.mem_singleton, List.not_mem_nil, or_false] at he
        rcases he with he | he | he
        · exact Or.inl ⟨_, he⟩
        · exact Or.inl ⟨_, he⟩
        · exact Or.inr (Or.inl he)
      · split at he
        · simp only [List.append_assoc, List.mem_append, List.mem_cons,
            List.mem_singleton, List.not_mem_nil, or_false] at he
          rcases he with (he | he | he) | he | he
          · exact Or.inl ⟨_, he⟩
          · exact Or.inl ⟨_, he⟩
          · exact Or.inr (Or.inl he)
          · exact Or.inl ⟨_, he⟩
          · exact Or.inl ⟨_, he⟩
        · simp only [List.append_assoc, List.mem_append, List.mem_cons,
            List.mem_singleton, List.not_mem_nil, or_false, List.mem_map] at he
          rcases he with (he | he | he) | (he | he) | he | ⟨m, _, he⟩ | he | he | he
          · exact Or.inl ⟨_, he⟩
          · exact Or.inl ⟨_, he⟩
          · exact Or.inr (Or.inl he)
          · exact Or.inr (Or.inr (Or.inl ⟨_, he⟩))
          · exact Or.inl ⟨_, he⟩
          · exact Or.inr (Or.inr (Or.inr (Or.inl ⟨_, he⟩)))
          · exact Or.inl ⟨_, he.symm⟩
          · exact Or.inl ⟨_, he⟩
          · exact Or.inr (Or.inr (Or.inr (Or.inr he)))
          · exact Or.inl ⟨_, he⟩

lemma processReport_not_for (env : Env) (d : List String) (r R : Report)
    (hname : r.name ≠ R.name) (hid : r.id ≠ R.id) :
    ∀ e ∈ (processReport env d r).1, isOpFor env.directory R e = false := by
  intro e he
  rcases processReport_events_shape env d r e he with
    ⟨m, rfl⟩ | rfl | ⟨c, rfl⟩ | ⟨c, rfl⟩ | rfl
  · rfl
  · simp only [isOpFor, beq_eq_false_iff_ne, ne_eq]
    exact hid
  · simp only [isOpFor, beq_eq_false_iff_ne, ne_eq]
    intro hpath
    exact hname (pathInj env.directory r.name R.name hpath)
  · simp only [isOpFor, beq_eq_false_iff_ne, ne_eq]
    exact hname
  · rfl

/-! ## Claims -/

/-- Claim C9: the ignore check is a substring test on the raw
`IGNORE_REPORTS` string, so any source report whose name occurs
contiguously in that string is skipped silently — its loop body emits no
event at all (no log, no export, no archive, no import) and the loop
simply moves on. -/
theorem claim_C9_substring_ignore (env : Env) (d : List String) (r : Report)
    (rs : List Report)
    (hsub : pyIn r.name env.ignore_reports = true) :
    processReport env d r = ([], none) ∧
    migrate env d (r :: rs) = migrate env d rs := by
  have h := processReport_ignored env d r hsub
  refine ⟨h, ?_⟩
  rw [migrate_cons_ok env d r rs (by rw [h]), h]
  simp

/-- Claim C9 witness: `ignore_report` is a substring of the raw
configuration string `["ignore_report_1", "ignore_report_2"]` without
being one of the two configured names, and the report carrying that name
is skipped with no event. -/
theorem claim_C9_witness :
    pyIn "ignore_report" envC9.ignore_reports = true ∧
    "ignore_report" ∉ ["ignore_report_1", "ignore_report_2"] ∧
    processReport envC9 [] ⟨"9", "ignore_report"⟩ = ([], none) ∧
    migrate envC9 [] [⟨"9", "ignore_report"⟩] = migrate envC9 [] [] := by
  have h := claim_C9_substring_ignore envC9 [] ⟨"9", "ignore_report"⟩ [] (by decide)
  exact ⟨by decide, by decide, h.1, h.2⟩

/-- Claim C5: if a report's name is a member of the configured ignore set,
then — for any serialization of that set into the raw `IGNORE_REPORTS`
string under which each configured name occurs verbatim — no export,
archive, or import operation for that report appears anywhere in the run
trace. -/
theorem claim_C5_ignore_list_exclusion (env : Env) (igs : List String) (R : Report)
    (_hsrc : R ∈ env.srcResp.body)
    (henc : ∀ n ∈ igs, pyIn n env.ignore_reports = true)
    (hmem : R.name ∈ igs)
    (hid : ∀ r ∈ env.srcResp.body, r.id = R.id → r.name = R.name) :
    (mainRun env).events.all (fun e => !(isOpFor env.directory R e)) = true := by
  have hR : pyIn R.name env.ignore_reports = true := henc _ hmem
  rw [List.all_eq_true]
  intro e he
  rw [Bool.not_eq_true']
  by_cases h1 : env.srcResp.status = 200
  · by_cases h2 : env.dstResp.status = 200
    · rw [mainRun_ok env h1 h2] at he
      simp only [List.mem_append, List.mem_cons, List.not_mem_nil, or_false] at he
      rcases he with (rfl | rfl) | he
      · rfl
      · rfl
      · rcases migrate_origin env _ _ e he with ⟨r, hr, he'⟩
        by_cases hig : pyIn r.name env.ignore_reports = true
        · rw [processReport_ignored env _ r hig] at he'
          simp at he'
        · have hname : r.name ≠ R.name := by
            intro hnm
            rw [hnm] at hig
            exact hig hR
          have hidr : r.id ≠ R.id := fun hi => hname (hid r hr hi)
          exact processReport_not_for env _ r R hname hidr e he'
    · rw [mainRun_dst_fail env h1 h2] at he
      simp only [List.mem_cons, List.not_mem_nil, or_false] at he
      rcases he with rfl | rfl <;> rfl
  · rw [mainRun_src_fail env h1] at he
    simp only [List.mem_cons, List.not_mem_nil, or_false] at he
    subst he
    rfl

/-- Claim C5 witness: in the concrete run `envC5`, report `1` is named
`Secret Report`, a member of the configured ignore set, and the whole run
trace contains no export, archive, or import operation for it. -/
theorem claim_C5_witness :
    (⟨"1", "Secret Report"⟩ : Report) ∈ envC5.srcResp.body ∧
    (mainRun envC5).events.all
      (fun e => !(isOpFor envC5.directory ⟨"1", "Secret Report"⟩ e)) = true :=
  ⟨by decide,
   claim_C5_ignore_list_exclusion envC5 ["Secret Report"] ⟨"1", "Secret Report"⟩
     (by decide) (by decide) (by decide) (by decide)⟩

/-- Claim C1 counterexample: in the concrete run `envC1` (two source
reports both named `Report 1`, empty destination catalog, all exports
and imports succeeding), the second occurrence is NOT skipped: its export GET
happens, `Report 1` is imported twice, the second record is appended as
well, and no `already exists` skip message is ever printed. -/
theorem claim_C1_counterexample :
    (mainRun envC1).events.count (Event.exportCall "2") = 1 ∧
    (mainRun envC1).events.count (Event.importCall "Report 1" [7]) = 2 ∧
    (mainRun envC1).events.count (Event.appendDst ⟨"2", "Report 1"⟩) = 1 ∧
    Event.log (existsMsg "Report 1") ∉ (mainRun envC1).events := by decide

/-- Claim C1 amended: with a duplicate non-ignored name and an empty
destination catalog, the orchestrator migrates the first report and
appends its record to the in-memory destination list, but the membership
check consults the name-keyed dict built before the loop, which list
appends never update — so the second occurrence is migrated again
(exported, imported, and appended) rather than skipped, and a report name
can be migrated more than once per run. -/
theorem claim_C1_amended (env : Env) (r1 r2 : Report)
    (hname : r2.name = r1.name)
    (hs1 : env.srcResp.status = 200) (hbody : env.srcResp.body = [r1, r2])
    (hs2 : env.dstResp.status = 200) (hdbody : env.dstResp.body = [])
    (hig : pyIn r1.name env.ignore_reports = false)
    (hx1 : ¬(400 ≤ (env.exportResp r1.id).status ∧ (env.exportResp r1.id).status < 600))
    (hc1 : (env.exportResp r1.id).body ≠ [])
    (hx2 : ¬(400 ≤ (env.exportResp r2.id).status ∧ (env.exportResp r2.id).status < 600))
    (hc2 : (env.exportResp r2.id).body ≠ []) :
    Event.appendDst r1 ∈ (mainRun env).events ∧
    Event.exportCall r2.id ∈ (mainRun env).events ∧
    Event.importCall r2.name ((env.exportResp r2.id).body) ∈ (mainRun env).events ∧
    Event.appendDst r2 ∈ (mainRun env).events ∧
    (mainRun env).error = none := by
  have hig2 : pyIn r2.name env.ignore_reports = false := by rw [hname]; exact hig
  have hd : env.dstResp.body.map Report.name = [] := by rw [hdbody]; rfl
  rw [mainRun_ok env hs1 hs2, hd, hbody]
  have hp1 := processReport_migrated env [] r1 hig rfl hx1 hc1
  have hp2 := processReport_migrated env [] r2 hig2 rfl hx2 hc2
  rw [migrate_cons_ok env [] r1 [r2] (by rw [hp1]),
      migrate_cons_ok env [] r2 [] (by rw [hp2]), hp1, hp2]
  refine ⟨?_, ?_, ?_, ?_, ?_⟩ <;> simp [migrate, upload_report_to_gcs]

/-- Claim C1 witness: the amended behavior at the concrete run `envC1`. -/
theorem claim_C1_witness :
    Event.appendDst ⟨"1", "Report 1"⟩ ∈ (mainRun envC1).events ∧
    Event.exportCall "2" ∈ (mainRun envC1).events ∧
    Event.importCall "Report 1" [7] ∈ (mainRun envC1).events ∧
    Event.appendDst ⟨"2", "Report 1"⟩ ∈ (mainRun envC1).events ∧
    (mainRun envC1).error = none :=
  claim_C1_amended envC1 ⟨"1", "Report 1"⟩ ⟨"2", "Report 1"⟩ rfl rfl rfl rfl rfl
    (by decide) (by decide) (by decide) (by decide) (by decide)

/-- Claim C2 counterexample: in the concrete run `envC2` the export of the
first report answers HTTP 500, so `raise_for_status` raises; the run
aborts with the propagated `HTTPError` — the next report's export never
happens and no failure message is logged. -/
theorem claim_C2_counterexample :
    (mainRun envC2).error = some (PyErr.httpError 500) ∧
    Event.exportCall "2" ∉ (mainRun envC2).events ∧
    Event.log (failedMsg "A") ∉ (mainRun envC2).events := by decide

/-- Claim C2 amended: an export that returns empty content is a per-report
recoverable failure — the orchestrator logs the failure, performs neither
the archive nor the import call for that report, and continues with the
next report; but an export that raises (HTTP error status) propagates and
aborts the run instead. Here report `r1` has an empty export and report
`r2` a raising one. -/
theorem claim_C2_amended (env : Env) (d : List String) (r1 r2 : Report)
    (rs : List Report)
    (hig1 : pyIn r1.name env.ignore_reports = false)
    (hd1 : d.contains r1.name = false)
    (hx1 : ¬(400 ≤ (env.exportResp r1.id).status ∧ (env.exportResp r1.id).status < 600))
    (hc1 : (env.exportResp r1.id).body = [])
    (hig2 : pyIn r2.name env.ignore_reports = false)
    (hd2 : d.contains r2.name = false)
    (hx2 : 400 ≤ (env.exportResp r2.id).status ∧ (env.exportResp r2.id).status < 600) :
    migrate env d (r1 :: r2 :: rs) =
      ([Event.log (startedMsg r1.name), Event.log r1.id, Event.exportCall r1.id,
        Event.log (failedMsg r1.name), Event.log timingMsg,
        Event.log (startedMsg r2.name), Event.log r2.id, Event.exportCall r2.id],
       some (PyErr.httpError (env.exportResp r2.id).status)) := by
  have hp1 := processReport_emptyExport env d r1 hig1 hd1 hx1 hc1
  have hp2 := processReport_raise env d r2 hig2 hd2 hx2
  rw [migrate_cons_ok env d r1 (r2 :: rs) (by rw [hp1]),
      migrate_cons_err env d r2 rs _ (by rw [hp2]), hp1, hp2]
  rfl

/-- Claim C2 witness: the amended behavior at a concrete input — report
`E` has an empty 200 export (failure logged, run continues), then report
`F`'s export answers 500 and the run aborts. -/
theorem claim_C2_witness :
    migrate
      { workspace_name := "W", ignore_reports := "X", directory := "d",
        source_workspace_id := "S", target_workspace_id := "T",
        srcResp := ⟨200, []⟩, dstResp := ⟨200, []⟩,
        exportResp := fun rid => if rid == "1" then ⟨200, []⟩ else ⟨500, []⟩,
        respImport := fun _ => ⟨202, "ok"⟩ }
      [] [⟨"1", "E"⟩, ⟨"2", "F"⟩] =
      ([Event.log (startedMsg "E"), Event.log "1", Event.exportCall "1",
        Event.log (failedMsg "E"), Event.log timingMsg,
        Event.log (startedMsg "F"), Event.log "2", Event.exportCall "2"],
       some (PyErr.httpError 500)) := by
  have h := claim_C2_amended
    { workspace_name := "W", ignore_reports := "X", directory := "d",
      source_workspace_id := "S", target_workspace_id := "T",
      srcResp := ⟨200, []⟩, dstResp := ⟨200, []⟩,
      exportResp := fun rid => if rid == "1" then ⟨200, []⟩ else ⟨500, []⟩,
      respImport := fun _ => ⟨202, "ok"⟩ }
    [] ⟨"1", "E"⟩ ⟨"2", "F"⟩ []
    (by decide) (by decide) (by decide) (by decide) (by decide) (by decide) (by decide)
  exact h

/-- Claim C3 counterexample: in the concrete run `envC3` the source
catalog listing answers HTTP 500; `get_reports` returns `None`, and the
orchestrator immediately applies `len` to it — the run aborts with a
`TypeError` instead of continuing with "no reports". -/
theorem claim_C3_counterexample :
    (mainRun envC3).error = some PyErr.typeError ∧
    (mainRun envC3).events =
      [Event.log (reportsErrMsg 500 "S")] := by decide

/-- Claim C3 amended: on a non-success status `get_reports` logs an error
and returns an absent result rather than a typed error — but the
downstream orchestrator does not treat that absence as "no reports":
applying `len`/iteration to it raises `TypeError` and the run aborts,
whether the source listing or the destination listing failed. -/
theorem claim_C3_amended (env1 env2 : Env)
    (h1 : env1.srcResp.status ≠ 200)
    (h2a : env2.srcResp.status = 200) (h2b : env2.dstResp.status ≠ 200) :
    get_reports env1.source_workspace_id env1.srcResp =
      (none, [reportsErrMsg env1.srcResp.status env1.source_workspace_id]) ∧
    (mainRun env1).events =
      [Event.log (reportsErrMsg env1.srcResp.status env1.source_workspace_id)] ∧
    (mainRun env1).error = some PyErr.typeError ∧
    (mainRun env2).error = some PyErr.typeError := by
  have hs : (env1.srcResp.status == HTTP_OK) = false := by
    simp [HTTP_OK]; exact h1
  refine ⟨by simp [get_reports, hs], ?_, ?_, ?_⟩
  · rw [mainRun_src_fail env1 h1]
  · rw [mainRun_src_fail env1 h1]
  · rw [mainRun_dst_fail env2 h2a h2b]

/-- Claim C3 witness: the amended behavior at concrete inputs — `envC3`
has a failing source listing; the second environment has a succeeding
source listing and a failing destination listing. -/
theorem claim_C3_witness :
    get_reports envC3.source_workspace_id envC3.srcResp =
      (none, [reportsErrMsg 500 "S"]) ∧
    (mainRun envC3).events = [Event.log (reportsErrMsg 500 "S")] ∧
    (mainRun envC3).error = some PyErr.typeError ∧
    (mainRun { envC3 with srcResp := ⟨200, []⟩, dstResp := ⟨500, []⟩ }).error =
      some PyErr.typeError := by
  have h := claim_C3_amended envC3 { envC3 with srcResp := ⟨200, []⟩, dstResp := ⟨500, []⟩ }
    (by decide) (by decide) (by decide)
  exact h

/-- Claim C4: a 202 import response yields the import descriptor; any
other status makes `import_report` log the response body and return the
absent result; and the orchestrator treats a rejected import as non-fatal
— the report's loop body raises nothing and the run continues with the
remaining reports. -/
theorem claim_C4_import_rejection (resp202 respX : HttpResponse String)
    (env : Env) (d : List String) (r : Report) (rs : List Report)
    (h202 : resp202.status = 202) (hX : respX.status ≠ 202)
    (hig : pyIn r.name env.ignore_reports = false)
    (hd : d.contains r.name = false)
    (hx : ¬(400 ≤ (env.exportResp r.id).status ∧ (env.exportResp r.id).status < 600))
    (hc : (env.exportResp r.id).body ≠ [])
    (himp : (env.respImport r.name).status ≠ 202) :
    (import_report resp202) = (some resp202.body, []) ∧
    (import_report respX) = (none, [respX.body]) ∧
    (import_report (env.respImport r.name)) = (none, [(env.respImport r.name).body]) ∧
    (processReport env d r).2 = none ∧
    migrate env d (r :: rs) =
      ((processReport env d r).1 ++ (migrate env d rs).1, (migrate env d rs).2) := by
  have hp := processReport_migrated env d r hig hd hx hc
  refine ⟨by simp [import_report, h202], by simp [import_report, hX],
          by simp [import_report, himp], by rw [hp], ?_⟩
  exact migrate_cons_ok env d r rs (by rw [hp])

/-- Claim C4 witness: concrete 202 and 401 responses, and the concrete
run `envC4` in which report `G`'s import is rejected with 400 while the
run goes on. -/
theorem claim_C4_witness :
    (import_report ⟨202, "desc"⟩) = (some "desc", []) ∧
    (import_report ⟨401, "denied"⟩) = (none, ["denied"]) ∧
    (import_report ⟨400, "bad"⟩) = (none, ["bad"]) ∧
    (processReport envC4 [] ⟨"1", "G"⟩).2 = none ∧
    migrate envC4 [] [⟨"1", "G"⟩] =
      ((processReport envC4 [] ⟨"1", "G"⟩).1 ++ (migrate envC4 [] []).1,
       (migrate envC4 [] []).2) := by
  exact claim_C4_import_rejection ⟨202, "desc"⟩ ⟨401, "denied"⟩ envC4 [] ⟨"1", "G"⟩ []
    (by decide) (by decide) (by decide) (by decide) (by decide) (by decide) (by decide)

/-- Claim C6: a non-ignored report whose name is a key of the name-keyed
destination lookup built before the loop is skipped: its loop body is
exactly one `already exists` log line — no export, import, or archive call
— and the loop continues with the remaining reports. -/
theorem claim_C6_destination_skip (env : Env) (dstReports : List Report)
    (r : Report) (rs : List Report)
    (hig : pyIn r.name env.ignore_reports = false)
    (hpresent : ∃ dr ∈ dstReports, dr.name = r.name) :
    processReport env (dstReports.map Report.name) r =
      ([Event.log (existsMsg r.name)], none) ∧
    migrate env (dstReports.map Report.name) (r :: rs) =
      (Event.log (existsMsg r.name) :: (migrate env (dstReports.map Report.name) rs).1,
       (migrate env (dstReports.map Report.name) rs).2) := by
  have hmem : r.name ∈ dstReports.map Report.name := by
    rcases hpresent with ⟨dr, hdr, hn⟩
    exact List.mem_map.mpr ⟨dr, hdr, hn⟩
  have hc : (dstReports.map Report.name).contains r.name = true := by
    exact List.elem_eq_true_of_mem hmem
  have hp := processReport_skip env (dstReports.map Report.name) r hig hc
  refine ⟨hp, ?_⟩
  rw [migrate_cons_ok env (dstReports.map Report.name) r rs (by rw [hp]), hp]
  rfl

/-- Claim C6 witness: report `Dup` (case-sensitive match) is already
listed in the destination catalog and is skipped with only the log line. -/
theorem claim_C6_witness :
    processReport envC6 ["Dup"] ⟨"1", "Dup"⟩ = ([Event.log (existsMsg "Dup")], none) ∧
    migrate envC6 ["Dup"] [⟨"1", "Dup"⟩] =
      (Event.log (existsMsg "Dup") :: (migrate envC6 ["Dup"] []).1,
       (migrate envC6 ["Dup"] []).2) := by
  exact claim_C6_destination_skip envC6 [⟨"77", "Dup"⟩] ⟨"1", "Dup"⟩ []
    (by decide) ⟨⟨"77", "Dup"⟩, by decide, rfl⟩

/-- Claim C7: for a migrated report the loop body's trace is exactly the
list below — the archival sink receives exactly the bytes the export
returned, under the object path `{directory}/{report_name}.pbix`, and that
upload (position 3) strictly precedes the import call (position 5). -/
theorem claim_C7_archive_before_import (env : Env) (d : List String) (r : Report)
    (hig : pyIn r.name env.ignore_reports = false)
    (hd : d.contains r.name = false)
    (hx : ¬(400 ≤ (env.exportResp r.id).status ∧ (env.exportResp r.id).status < 600))
    (hc : (env.exportResp r.id).body ≠ []) :
    export_report (env.exportResp r.id) = Except.ok ((env.exportResp r.id).body) ∧
    processReport env d r =
      ([Event.log (startedMsg r.name), Event.log r.id, Event.exportCall r.id,
        Event.uploadCall (env.directory ++ "/" ++ r.name ++ ".pbix")
          ((env.exportResp r.id).body),
        Event.log (uploadedMsg r.name (env.directory ++ "/" ++ r.name ++ ".pbix")),
        Event.importCall r.name ((env.exportResp r.id).body)]
        ++ (import_report (env.respImport r.name)).2.map Event.log
        ++ [Event.log (successMsg (import_report (env.respImport r.name)).1),
            Event.appendDst r, Event.log timingMsg], none) := by
  have hr : raise_for_status (env.exportResp r.id).status = Except.ok () := by
    simp [raise_for_status, hx]
  refine ⟨by simp [export_report, hr], ?_⟩
  rw [processReport_migrated env d r hig hd hx hc]
  simp [upload_report_to_gcs]

/-- Claim C7 witness: the migrated report of `envC1`: the upload of the
exported bytes `[7]` to `d/Report 1.pbix` precedes the import call. -/
theorem claim_C7_witness :
    export_report (envC1.exportResp "1") = Except.ok [7] ∧
    processReport envC1 [] ⟨"1", "Report 1"⟩ =
      ([Event.log (startedMsg "Report 1"), Event.log "1", Event.exportCall "1",
        Event.uploadCall ("d" ++ "/" ++ "Report 1" ++ ".pbix") [7],
        Event.log (uploadedMsg "Report 1" ("d" ++ "/" ++ "Report 1" ++ ".pbix")),
        Event.importCall "Report 1" [7]]
        ++ (import_report ⟨202, "ok"⟩).2.map Event.log
        ++ [Event.log (successMsg (import_report ⟨202, "ok"⟩).1),
            Event.appendDst ⟨"1", "Report 1"⟩, Event.log timingMsg], none) := by
  exact claim_C7_archive_before_import envC1 [] ⟨"1", "Report 1"⟩
    (by decide) (by decide) (by decide) (by decide)

/-- Claim C8: when the groups listing succeeds, `get_workspace` returns
the id of the first listed workspace whose name exactly equals the
requested name (`List.find?` semantics, so duplicates resolve to the
first), and the absent result when no listed name equals it. -/
theorem claim_C8_workspace_resolution (resp : HttpResponse (List Workspace))
    (nm : String)
    (hok : ¬(400 ≤ resp.status ∧ resp.status < 600)) :
    get_workspace resp nm =
      Except.ok ((resp.body.find? (fun w => w.name == nm)).map Workspace.id) := by
  have hr : raise_for_status resp.status = Except.ok () := by
    simp [raise_for_status, hok]
  simp only [get_workspace, hr]
  by_cases hlen : (resp.body.filter (fun r => r.name == nm)).length > 0
  · rw [if_pos hlen, filter_head?_eq_find?]
  · rw [if_neg hlen]
    have hnil : resp.body.filter (fun r => r.name == nm) = [] := by
      cases hE : resp.body.filter (fun r => r.name == nm) with
      | nil => rfl
      | cons a as => rw [hE] at hlen; simp at hlen
    rw [← filter_head?_eq_find?, hnil]
    rfl

/-- Claim C8 witness: a listing with duplicate names `W` resolves to the
first match `id1`; a listing without the name resolves to the absent
result. -/
theorem claim_C8_witness :
    get_workspace ⟨200, [⟨"idA", "Other"⟩, ⟨"id1", "W"⟩, ⟨"id2", "W"⟩]⟩ "W" =
      Except.ok (some "id1") ∧
    get_workspace ⟨200, [⟨"idA", "Other"⟩]⟩ "W" = Except.ok none := by
  refine ⟨?_, ?_⟩
  · rw [claim_C8_workspace_resolution ⟨200, [⟨"idA", "Other"⟩, ⟨"id1", "W"⟩, ⟨"id2", "W"⟩]⟩
        "W" (by decide)]
    rfl
  · rw [claim_C8_workspace_resolution ⟨200, [⟨"idA", "Other"⟩]⟩ "W" (by decide)]
    rfl

/-- Claim C10: when export returns non-empty content but the import is
rejected (non-202), the loop body still prints the success message
(rendering the failed result as `None`) and still appends the source
record to the in-memory destination list — the import outcome is never
inspected. -/
theorem claim_C10_unconditional_success (env : Env) (d : List String) (r : Report)
    (hig : pyIn r.name env.ignore_reports = false)
    (hd : d.contains r.name = false)
    (hx : ¬(400 ≤ (env.exportResp r.id).status ∧ (env.exportResp r.id).status < 600))
    (hc : (env.exportResp r.id).body ≠ [])
    (himp : (env.respImport r.name).status ≠ 202) :
    (import_report (env.respImport r.name)).1 = none ∧
    processReport env d r =
      ([Event.log (startedMsg r.name), Event.log r.id, Event.exportCall r.id,
        Event.uploadCall (env.directory ++ "/" ++ r.name ++ ".pbix")
          ((env.exportResp r.id).body),
        Event.log (uploadedMsg r.name (env.directory ++ "/" ++ r.name ++ ".pbix")),
        Event.importCall r.name ((env.exportResp r.id).body),
        Event.log ((env.respImport r.name).body),
        Event.log (successMsg none), Event.appendDst r, Event.log timingMsg], none) := by
  have himpEq : import_report (env.respImport r.name) =
      (none, [(env.respImport r.name).body]) := by
    simp [import_report, himp]
  have hp := processReport_migrated env d r hig hd hx hc
  rw [himpEq] at hp
  refine ⟨by rw [himpEq], ?_⟩
  rw [hp]
  simp [upload_report_to_gcs]

/-- Claim C10 witness: in `envC4` the import of `G` is rejected with 400,
yet the success message (with `None`) is printed and the record is
appended. -/
theorem claim_C10_witness :
    (import_report (envC4.respImport "G")).1 = none ∧
    processReport envC4 [] ⟨"1", "G"⟩ =
      ([Event.log (startedMsg "G"), Event.log "1", Event.exportCall "1",
        Event.uploadCall ("d" ++ "/" ++ "G" ++ ".pbix") [7],
        Event.log (uploadedMsg "G" ("d" ++ "/" ++ "G" ++ ".pbix")),
        Event.importCall "G" [7], Event.log "bad",
        Event.log (successMsg none), Event.appendDst ⟨"1", "G"⟩,
        Event.log timingMsg], none) := by
  exact claim_C10_unconditional_success envC4 [] ⟨"1", "G"⟩
    (by decide) (by decide) (by decide) (by decide) (by decide)
